import Mathlib

/-!
Verification of the client-side session lifecycle manager of the
coffee-ecommerce-frontend repository, embedded shallowly from
`src/context/AuthContext.jsx` (restore effect, `handleLogout`,
`loginAuth`, `logoutAuth`, render gate) and
`src/services/authService.js` (`login`, `logout`).

Modelling conventions:
- `localStorage` is a record with the two reserved keys, `user` and
  `accessToken`.  `getItem` returning `null` is `none` / `.absent`.
- The stored `user` value is the result of `JSON.parse`: the key can be
  absent (or hold a falsy value), hold a string that `JSON.parse` cannot
  parse (in which case the restore effect throws, since the parse sits
  outside the `try` block), or parse to a user record.
- `jwtDecode` is modelled by an arbitrary decode function
  `String → Jwt`: it either throws (`.malformed`) or yields the `exp`
  claim in seconds (`.valid exp`).
- Time is exact arithmetic in milliseconds: the source's comparison
  `decodedToken.exp < Date.now() / 1000` is embedded as
  `exp * 1000 < nowMs`, and `timeLeft = (exp - now) * 1000` as
  `exp * 1000 - nowMs`.
- JavaScript truthiness of the string-valued slots (`null` and `""` are
  falsy) is `truthyStr`.
- A thrown exception that escapes an operation is `Except.error`.
-/

/-- The result of `jwtDecode` on an access-token string: either the call
throws (malformed token) or it yields the token's `exp` claim, in
seconds since the epoch. -/
inductive Jwt : Type
| malformed : Jwt
| valid (exp : Nat) : Jwt
deriving DecidableEq

/-- A user record as serialized into the store by `authService.login`
(`JSON.stringify(user)`): an id, an email, and the `token` field that the
backend nests inside the user object (`const { token: accessToken } =
user`).  `token := none` models a record without the property. -/
structure UserRec : Type where
  id : Nat
  email : String
  token : Option String
deriving DecidableEq

/-- The value of the reserved `user` key as seen by the restore effect:
`JSON.parse(localStorage.getItem("user"))` either sees no key (or a falsy
parse result), throws on unparsable contents, or yields a record. -/
inductive StoredUser : Type
| absent : StoredUser
| unparsable : StoredUser
| parsed (u : UserRec) : StoredUser
deriving DecidableEq

/-- The persistent key-value store, restricted to the two reserved keys.
`accessToken` is the raw string under the `accessToken` key (`none` when
the key is absent). -/
structure Store : Type where
  user : StoredUser
  accessToken : Option String
deriving DecidableEq

/-- The store with both reserved keys absent. -/
def emptyStore : Store := { user := .absent, accessToken := none }

/-- `authService.logout`: `removeItem("user"); removeItem("accessToken")`.
Total and exception-free, also when the keys are already absent. -/
def serviceLogout (_st : Store) : Store := emptyStore

/-- JavaScript truthiness of a nullable string: `null` and `""` are
falsy, every other string is truthy. -/
def truthyStr : Option String → Bool
| none => false
| some s => s != ""

/-- The observable state of the `AuthProvider` component:
in-memory `currentUser` React state, the persistent store, the pending
auto-logout timer (`logoutTimer.current`, as the scheduled delay in
milliseconds), the last navigation target issued via `navigate`, and the
`loading` flag of the render gate. -/
structure AuthState : Type where
  currentUser : Option UserRec
  store : Store
  timer : Option Nat
  nav : Option String
  loading : Bool
deriving DecidableEq

/-- The component state at mount over a given persisted store:
`useState(null)` for the user, no timer, no navigation issued, and —
as written at `useState(false)` — `loading` initialized to `false`. -/
def initialAuthState (st : Store) : AuthState :=
  { currentUser := none, store := st, timer := none, nav := none,
    loading := false }

/-- The render gate `{!loading && children}`: children are rendered
exactly when `loading` is `false`. -/
def renderChildren (s : AuthState) : Bool := !s.loading

/-- `handleLogout`: `authService.logout()`, `setCurrentUser(null)`,
`clearTimeout` on any pending timer, `navigate("/login")`. -/
def handleLogout (s : AuthState) : AuthState :=
  { s with store := serviceLogout s.store, currentUser := none,
           timer := none, nav := some "/login" }

/-- `logoutAuth`, the logout exposed to consumers through the context
value: `authService.logout()` and `setCurrentUser(null)` only — it
neither clears the pending timer nor navigates. -/
def logoutAuth (s : AuthState) : AuthState :=
  { s with store := serviceLogout s.store, currentUser := none }

/-- The scheduled expiry action: when the timer fires it runs
`handleLogout`. -/
def expiryFire (s : AuthState) : AuthState := handleLogout s

/-- The unmount cleanup returned by the restore effect: `clearTimeout`
on any pending timer. -/
def unmountCleanup (s : AuthState) : AuthState := { s with timer := none }

/-- `setLoading(false)` at the end of the restore effect. -/
def finishRestore (s : AuthState) : AuthState := { s with loading := false }

/-- The `try` block of the restore effect once the presence guard has
passed, applied to the decode result of the stored token: a decode
failure is caught and runs `handleLogout`; a decoded `exp` with
`exp < Date.now() / 1000` runs `handleLogout`; otherwise the parsed
user `u` becomes the current user and `handleLogout` is scheduled
`timeLeft = (exp - now) * 1000` milliseconds out. -/
def restoreToken (j : Jwt) (nowMs : Nat) (u : UserRec) (s : AuthState) :
    AuthState :=
  match j with
  | .malformed => finishRestore (handleLogout s)
  | .valid e =>
    if e * 1000 < nowMs then finishRestore (handleLogout s)
    else finishRestore
      { s with currentUser := some u, timer := some (e * 1000 - nowMs) }

/-- The restore effect that runs once on mount.  It reads both reserved
keys; `JSON.parse` of the `user` value sits outside the `try` block, so
an unparsable value makes the whole effect throw (`Except.error ()`).
Otherwise: if the guard `user && user.token && accessToken` fails, run
`handleLogout`; else decode the token inside the `try` and proceed as in
`restoreToken`.  Every non-throwing path ends with
`setLoading(false)`. -/
def restore (dec : String → Jwt) (nowMs : Nat) (s : AuthState) :
    Except Unit AuthState :=
  match s.store.user with
  | .unparsable => .error ()
  | .absent => .ok (finishRestore (handleLogout s))
  | .parsed u =>
    match s.store.accessToken with
    | none => .ok (finishRestore (handleLogout s))
    | some tokStr =>
      if truthyStr u.token && (tokStr != "") then
        .ok (restoreToken (dec tokStr) nowMs u s)
      else .ok (finishRestore (handleLogout s))

/-- The parsed body of the identity service's response to `login`,
together with `response.ok`: `user` is `data.user` (`none` when the
field is `null`/missing, in which case destructuring `user.token`
throws), and `message` is `data.message`. -/
structure LoginResponse : Type where
  ok : Bool
  message : Option String
  user : Option UserRec
deriving DecidableEq

/-- How a `login` call can reject. `httpError` is the typed
`Error(data.message || "Login failed.")` on a non-2xx response;
`typeError` is the untyped TypeError thrown by
`const { token: accessToken } = user` when `data.user` is
`null`/missing; `missingTokenOrUser` is the typed
`Error("Login failed: Missing token or user data in response.")`. -/
inductive LoginError : Type
| httpError (msg : String) : LoginError
| typeError : LoginError
| missingTokenOrUser : LoginError
deriving DecidableEq

/-- `authService.login` after the fetch resolved to `resp`: check
`response.ok`, destructure `data.user` and `user.token`, run the
`!accessToken || !user` check, and only then write both reserved keys
and return the user.  Every rejection happens before any store write. -/
def serviceLogin (resp : LoginResponse) (st : Store) :
    Except LoginError (Store × UserRec) :=
  if !resp.ok then
    .error (.httpError (resp.message.getD "Login failed."))
  else
    match resp.user with
    | none => .error .typeError
    | some u =>
      if !truthyStr u.token then .error .missingTokenOrUser
      else .ok ({ st with user := .parsed u, accessToken := u.token }, u)

/-- `loginAuth`: await `authService.login` and, on success,
`setCurrentUser(user)`.  On rejection the await rethrows and no state
changes.  No timer is scheduled and no navigation is issued. -/
def loginAuth (resp : LoginResponse) (s : AuthState) :
    Except LoginError AuthState :=
  match serviceLogin resp s.store with
  | .error e => .error e
  | .ok (st, u) => .ok { s with store := st, currentUser := some u }

/-- The spec's session invariant, instantiated to the embedding: the
in-memory user is non-null exactly when the persisted access token is
non-null.  `LoggedIn` has no separate representation in the source — it
is precisely `currentUser != null`. -/
def sessionInv (s : AuthState) : Prop :=
  (s.currentUser ≠ none) ↔ (s.store.accessToken ≠ none)

/-- The fully logged-out component state every `handleLogout`-ending
restore path produces: no user, cleared store, no timer, a redirect to
the login view, `loading` off. -/
def loggedOutState : AuthState :=
  { currentUser := none, store := emptyStore, timer := none,
    nav := some "/login", loading := false }

theorem finishRestore_handleLogout (s : AuthState) :
    finishRestore (handleLogout s) = loggedOutState := rfl

/-- Every successful run of the restore effect ends either in the
logged-out state or, when the guard passed and the token decoded to a
future expiry, in the restored session with a scheduled timer. -/
theorem restore_ok_cases (dec : String → Jwt) (nowMs : Nat)
    (s s' : AuthState) (h : restore dec nowMs s = .ok s') :
    s' = loggedOutState ∨
    ∃ u tokStr e, s.store.user = .parsed u ∧
      s.store.accessToken = some tokStr ∧
      dec tokStr = .valid e ∧ ¬ e * 1000 < nowMs ∧
      s' = finishRestore
        { s with currentUser := some u, timer := some (e * 1000 - nowMs) } := by
  obtain ⟨cu, ⟨su, atk⟩, tm, nv, ld⟩ := s
  cases su with
  | unparsable => exact Except.noConfusion h
  | absent => exact Or.inl (Except.ok.inj h).symm
  | parsed u =>
    cases atk with
    | none => exact Or.inl (Except.ok.inj h).symm
    | some tokStr =>
      by_cases hg : (truthyStr u.token && (tokStr != "")) = true
      · simp only [restore, if_pos hg] at h
        cases hd : dec tokStr with
        | malformed =>
          rw [hd] at h
          simp only [restoreToken] at h
          exact Or.inl (Except.ok.inj h).symm
        | valid e =>
          rw [hd] at h
          simp only [restoreToken] at h
          by_cases he : e * 1000 < nowMs
          · rw [if_pos he] at h
            exact Or.inl (Except.ok.inj h).symm
          · rw [if_neg he] at h
            exact Or.inr ⟨u, tokStr, e, rfl, rfl, hd, he,
              (Except.ok.inj h).symm⟩
      · simp only [restore, if_neg hg] at h
        exact Or.inl (Except.ok.inj h).symm

/-- A concrete user fixture, mirroring the spec's happy-path test. -/
def exUser : UserRec := { id := 1, email := "a@b.com", token := some "tok" }

/-- A concrete store holding the serialized `exUser` and its token. -/
def exFullStore : Store :=
  { user := .parsed exUser, accessToken := some "tok" }

/-- A `jwtDecode` fixture: every token decodes to `exp = 5` seconds. -/
def exDecodeValid5 : String → Jwt := fun _ => .valid 5

/-- A `jwtDecode` fixture on which decoding always fails. -/
def exDecodeMalformed : String → Jwt := fun _ => .malformed

/-- A live logged-in component state with a pending 5000 ms timer. -/
def exLiveState : AuthState :=
  { currentUser := some exUser, store := exFullStore, timer := some 5000,
    nav := none, loading := false }

/-- A successful identity-service login response carrying `exUser`. -/
def exResp : LoginResponse := { ok := true, message := none, user := some exUser }

/-- The component state a successful login leaves behind: the response's
user becomes the current user and both reserved keys are written; the
timer, navigation and loading slots are untouched. -/
def postLoginState (s : AuthState) (u : UserRec) : AuthState :=
  { s with currentUser := some u,
           store := { s.store with
                      user := .parsed u,
                      accessToken := u.token } }

/-- Characterization of every successful `loginAuth` run: the response
was 2xx, carried a user with a truthy token, and the resulting state is
`postLoginState`. -/
theorem loginAuth_ok (resp : LoginResponse) (s s' : AuthState)
    (h : loginAuth resp s = .ok s') :
    ∃ u, resp.ok = true ∧ resp.user = some u ∧ truthyStr u.token = true ∧
      s' = postLoginState s u := by
  obtain ⟨ok, msg, ou⟩ := resp
  cases ok with
  | false => exact Except.noConfusion h
  | true =>
    cases ou with
    | none => exact Except.noConfusion h
    | some u =>
      cases htk : truthyStr u.token with
      | false =>
        simp only [loginAuth, serviceLogin, htk] at h
        exact Except.noConfusion h
      | true =>
        simp only [loginAuth, serviceLogin, htk] at h
        simp only [Bool.not_true, Bool.false_eq_true, if_false,
          Bool.not_false, if_true] at h
        exact ⟨u, rfl, rfl, htk, (Except.ok.inj h).symm⟩

/-- Claim C1: after every operation of the session manager — the
central logout routine (also run at restore's expired/malformed paths),
the consumer-facing logout, the expiry firing, every restore that
completes, and every successful login — the in-memory user is non-null
exactly when the persisted access token is non-null.  `LoggedIn` has no
separate representation in the source: it is precisely
`currentUser != null`, so the three-way equality of the claim reduces
to `sessionInv`.  A rejected login leaves the state untouched by
construction, so it preserves the invariant as well. -/
theorem c1_session_invariant (s : AuthState) (dec : String → Jwt)
    (nowMs : Nat) (resp : LoginResponse) :
    sessionInv (handleLogout s) ∧ sessionInv (logoutAuth s) ∧
    sessionInv (expiryFire s) ∧
    (∀ s', restore dec nowMs s = .ok s' → sessionInv s') ∧
    (∀ s', loginAuth resp s = .ok s' → sessionInv s') := by
  refine ⟨?_, ?_, ?_, ?_, ?_⟩
  · simp [sessionInv, handleLogout, serviceLogout, emptyStore]
  · simp [sessionInv, logoutAuth, serviceLogout, emptyStore]
  · simp [sessionInv, expiryFire, handleLogout, serviceLogout, emptyStore]
  · intro s' h
    rcases restore_ok_cases dec nowMs s s' h with rfl |
      ⟨u, tokStr, e, hu, ht, hd, he, rfl⟩
    · simp [sessionInv, loggedOutState, emptyStore]
    · simp [sessionInv, finishRestore, ht]
  · intro s' h
    rcases loginAuth_ok resp s s' h with ⟨u, hok, hu, htk, rfl⟩
    cases hut : u.token with
    | none => rw [hut] at htk; exact absurd htk (by simp [truthyStr])
    | some t => simp [sessionInv, postLoginState, hut]

/-- Witness for C1 at concrete inputs: the invariant after
`handleLogout`, after a restore that resolves to the live session, and
after a successful login. -/
theorem c1_session_invariant_witness :
    sessionInv (handleLogout exLiveState) ∧
    sessionInv (finishRestore
      { exLiveState with
        currentUser := some exUser,
        timer := some (5 * 1000 - 1000) }) ∧
    sessionInv (postLoginState (initialAuthState emptyStore) exUser) := by
  obtain ⟨h1, h2, h3, h4, h5⟩ :=
    c1_session_invariant exLiveState exDecodeValid5 1000 exResp
  obtain ⟨g1, g2, g3, g4, g5⟩ :=
    c1_session_invariant (initialAuthState emptyStore) exDecodeValid5
      1000 exResp
  exact ⟨h1, h4 _ rfl, g5 _ rfl⟩

/-- The HTTP-200 login response with an empty body `{}`. -/
def emptyLoginResp : LoginResponse :=
  { ok := true, message := none, user := none }

/-- Claim C2 (code bug): for the stubbed response `{}` the login call
does reject before touching the store, but with the untyped TypeError
thrown by `const { token: accessToken } = user` on an undefined `user`,
not with the typed missing-token-or-user error — the code's own check
`if (!accessToken || !user)` is unreachable for a missing user record
because the destructuring on the previous line already threw. -/
theorem c2_login_empty_response :
    loginAuth emptyLoginResp (initialAuthState emptyStore) =
      .error .typeError ∧
    LoginError.typeError ≠ .missingTokenOrUser := ⟨rfl, by decide⟩

/-- Claim C3 counterexample: a successful login response (its user's
token would decode to a future expiry under any decode fixture) sets
the live session and persists both fields, but the pending-timer slot
of the resulting state is `none`: no deferred auto-logout is scheduled,
unlike the restore path. -/
theorem c3_counterexample :
    loginAuth exResp (initialAuthState emptyStore) =
      .ok { currentUser := some exUser,
            store := { user := .parsed exUser, accessToken := some "tok" },
            timer := none, nav := none, loading := false } := rfl

/-- Claim C3 (amended): for every successful login response containing
a user record with a truthy token, login persists both fields to the
store and sets them as the live in-memory session (LoggedIn), but it
schedules no deferred auto-logout action: the pending-timer slot is
left exactly as it was.  Expiry scheduling happens only in the restore
path. -/
theorem c3_amended (resp : LoginResponse) (s : AuthState) (u : UserRec)
    (hok : resp.ok = true) (hu : resp.user = some u)
    (htk : truthyStr u.token = true) :
    loginAuth resp s = .ok (postLoginState s u) ∧
    (postLoginState s u).currentUser = some u ∧
    (postLoginState s u).store.user = .parsed u ∧
    (postLoginState s u).store.accessToken = u.token ∧
    (postLoginState s u).timer = s.timer := by
  refine ⟨?_, rfl, rfl, rfl, rfl⟩
  simp [loginAuth, serviceLogin, postLoginState, hok, hu, htk]

/-- Witness for C3 (amended) at the spec's happy-path fixture. -/
theorem c3_amended_witness :
    loginAuth exResp (initialAuthState emptyStore) =
      .ok (postLoginState (initialAuthState emptyStore) exUser) ∧
    (postLoginState (initialAuthState emptyStore) exUser).currentUser =
      some exUser ∧
    (postLoginState (initialAuthState emptyStore) exUser).store.user =
      .parsed exUser ∧
    (postLoginState (initialAuthState emptyStore) exUser).store.accessToken =
      exUser.token ∧
    (postLoginState (initialAuthState emptyStore) exUser).timer =
      (initialAuthState emptyStore).timer :=
  c3_amended exResp (initialAuthState emptyStore) exUser rfl rfl rfl

/-- Claim C4 counterexample: with a persisted pair whose decoded expiry
claim equals the current time (`exp = 5` s, now `5000` ms), restore
does not end in LoggedOut with the keys removed — the source compares
with strict `<`, so it restores the session (LoggedIn), keeps both
keys, and schedules an auto-logout 0 ms out. -/
theorem c4_counterexample :
    restore exDecodeValid5 5000 (initialAuthState exFullStore) =
      .ok { currentUser := some exUser, store := exFullStore,
            timer := some 0, nav := none, loading := false } ∧
    some exUser ≠ (none : Option UserRec) ∧
    exFullStore.accessToken ≠ none := ⟨rfl, by decide, by decide⟩

/-- Claim C4 (amended): for every persisted `{user, accessToken}` pair
whose decoded expiry claim is strictly less than the current time, the
restore step ends in the LoggedOut state and removes both reserved keys
(at exact equality the session is instead restored with an immediate
0 ms auto-logout, per the counterexample). -/
theorem c4_amended (dec : String → Jwt) (nowMs : Nat) (s : AuthState)
    (u : UserRec) (tokStr : String) (e : Nat)
    (hu : s.store.user = .parsed u) (htk : truthyStr u.token = true)
    (ht : s.store.accessToken = some tokStr) (hne : (tokStr != "") = true)
    (hd : dec tokStr = .valid e) (hexp : e * 1000 < nowMs) :
    restore dec nowMs s = .ok loggedOutState := by
  obtain ⟨cu, ⟨su, atk⟩, tm, nv, ld⟩ := s
  dsimp only at hu ht
  subst hu; subst ht
  simp [restore, restoreToken, htk, hne, hd, hexp,
    finishRestore_handleLogout]

/-- Witness for C4 (amended): expiry 5 s, current time 6000 ms. -/
theorem c4_amended_witness :
    restore exDecodeValid5 6000 (initialAuthState exFullStore) =
      .ok loggedOutState :=
  c4_amended exDecodeValid5 6000 (initialAuthState exFullStore) exUser
    "tok" 5 rfl rfl rfl rfl rfl (by decide)

/-- Claim C5: for every persisted pair that passes the presence guard
but whose token fails to decode, restore resolves (no exception escapes
to the caller — the decode sits inside the `try` and the catch runs the
logout routine) to the LoggedOut state with both reserved keys
removed. -/
theorem c5_malformed_restore (dec : String → Jwt) (nowMs : Nat)
    (s : AuthState) (u : UserRec) (tokStr : String)
    (hu : s.store.user = .parsed u) (htk : truthyStr u.token = true)
    (ht : s.store.accessToken = some tokStr) (hne : (tokStr != "") = true)
    (hd : dec tokStr = .malformed) :
    restore dec nowMs s = .ok loggedOutState := by
  obtain ⟨cu, ⟨su, atk⟩, tm, nv, ld⟩ := s
  dsimp only at hu ht
  subst hu; subst ht
  simp [restore, restoreToken, htk, hne, hd, finishRestore_handleLogout]

/-- Witness for C5 at a store whose token always fails to decode. -/
theorem c5_malformed_restore_witness :
    restore exDecodeMalformed 0 (initialAuthState exFullStore) =
      .ok loggedOutState :=
  c5_malformed_restore exDecodeMalformed 0 (initialAuthState exFullStore)
    exUser "tok" rfl rfl rfl rfl rfl

/-- Claim C6: the consumer-facing logout is idempotent — applying it
twice yields exactly the state of applying it once — and calling it
with no active session (no user, both keys already absent) is a no-op.
Both the service `removeItem` calls and `setCurrentUser(null)` are
total, so no exception is possible on the second call: the operation is
a total function in the embedding. -/
theorem c6_logout_idempotent (s : AuthState) :
    logoutAuth (logoutAuth s) = logoutAuth s ∧
    (s.currentUser = none → s.store = emptyStore → logoutAuth s = s) := by
  obtain ⟨cu, st, tm, nv, ld⟩ := s
  refine ⟨rfl, ?_⟩
  intro h1 h2
  dsimp only at h1 h2
  subst h1; subst h2
  rfl

/-- Witness for C6: double logout from a live state, and logout as a
no-op on the pristine logged-out state. -/
theorem c6_logout_idempotent_witness :
    logoutAuth (logoutAuth exLiveState) = logoutAuth exLiveState ∧
    logoutAuth (initialAuthState emptyStore) = initialAuthState emptyStore :=
  ⟨(c6_logout_idempotent exLiveState).1,
   (c6_logout_idempotent (initialAuthState emptyStore)).2 rfl rfl⟩

/-- Claim C7 counterexample: from a live session with a pending 5000 ms
expiry timer, the consumer-facing logout clears the session and the
store but leaves the scheduled expiry action pending — the stale timer
will still fire against the already-cleared (or later replaced)
session. -/
theorem c7_counterexample :
    (logoutAuth exLiveState).currentUser = none ∧
    (logoutAuth exLiveState).store = emptyStore ∧
    (logoutAuth exLiveState).timer = some 5000 := ⟨rfl, rfl, rfl⟩

/-- Claim C7 (amended): the central logout routine — which is what the
expiry firing and restore's expired/malformed paths run — cancels any
pending scheduled expiry action, and the unmount cleanup clears it; but
the consumer-facing logout leaves a pending timer unchanged, and a new
successful login does not cancel one either. -/
theorem c7_amended (s : AuthState) (resp : LoginResponse) :
    (handleLogout s).timer = none ∧ (expiryFire s).timer = none ∧
    (unmountCleanup s).timer = none ∧
    (logoutAuth s).timer = s.timer ∧
    (∀ s', loginAuth resp s = .ok s' → s'.timer = s.timer) := by
  refine ⟨rfl, rfl, rfl, rfl, ?_⟩
  intro s' h
  rcases loginAuth_ok resp s s' h with ⟨u, _, _, _, rfl⟩
  rfl

/-- Witness for C7 (amended) on the live state with a pending timer,
with the login leg discharged at the concrete successful response. -/
theorem c7_amended_witness :
    (handleLogout exLiveState).timer = none ∧
    (logoutAuth exLiveState).timer = exLiveState.timer ∧
    (postLoginState exLiveState exUser).timer = exLiveState.timer := by
  obtain ⟨h1, h2, h3, h4, h5⟩ := c7_amended exLiveState exResp
  exact ⟨h1, h4, h5 (postLoginState exLiveState exUser) rfl⟩

/-- Claim C8 (code bug): the readiness gate never suppresses downstream
reads.  `loading` is initialized to `false` (`useState(false)`), so at
mount — before the restore effect has run — `!loading && children`
already renders the children for every persisted store; the comments
around the gate and the trailing `setLoading(false)` show the flag was
meant to start `true`. -/
theorem c8_gate_open_before_restore (st : Store) :
    (initialAuthState st).loading = false ∧
    renderChildren (initialAuthState st) = true := ⟨rfl, rfl⟩

/-- Claim C9 counterexample: on a cold start with both reserved keys
absent, restore does resolve to LoggedOut with no error, but not
side-effect-free: it runs the full logout routine, which issues a
redirect to the login view (`nav` goes from `none` to
`some "/login"`). -/
theorem c9_counterexample :
    restore exDecodeValid5 0 (initialAuthState emptyStore) =
      .ok loggedOutState ∧
    (initialAuthState emptyStore).nav = none ∧
    loggedOutState.nav = some "/login" := ⟨rfl, rfl, rfl⟩

/-- Claim C9 (amended): for every startup state whose persisted user
value is absent (or parsable but accompanied by a missing/empty access
token), restore transitions to LoggedOut with no error surfaced — by
running the full logout routine, which also removes both reserved keys
and redirects to the login view. -/
theorem c9_amended (dec : String → Jwt) (nowMs : Nat) (s : AuthState)
    (h : s.store.user = .absent ∨
      ∃ u, s.store.user = .parsed u ∧
        truthyStr s.store.accessToken = false) :
    restore dec nowMs s = .ok loggedOutState := by
  obtain ⟨cu, ⟨su, atk⟩, tm, nv, ld⟩ := s
  dsimp only at h
  rcases h with h | ⟨u, hu, ht⟩
  · subst h; rfl
  · subst hu
    cases atk with
    | none => rfl
    | some t =>
      simp only [truthyStr] at ht
      simp [restore, ht, finishRestore_handleLogout]

/-- Witness for C9 (amended): a stored user record with no access
token alongside it. -/
theorem c9_amended_witness :
    restore exDecodeValid5 0
      (initialAuthState { user := .parsed exUser, accessToken := none }) =
      .ok loggedOutState :=
  c9_amended exDecodeValid5 0
    (initialAuthState { user := .parsed exUser, accessToken := none })
    (Or.inr ⟨exUser, rfl, rfl⟩)

/-- A store holding a decodable, non-expired token under `accessToken`
while the `user` key holds a value `JSON.parse` cannot parse. -/
def exUnparsableStore : Store :=
  { user := .unparsable, accessToken := some "tok" }

/-- Claim C10 counterexample: with a valid non-expired token (it
decodes to `exp = 5` s at time 0) but an unparsable stored user value,
restore does not resolve to LoggedOut at all — `JSON.parse` sits
outside the `try` block, so the whole effect throws. -/
theorem c10_counterexample :
    restore exDecodeValid5 0 (initialAuthState exUnparsableStore) =
      .error () := rfl

/-- A user record fixture without a `token` property. -/
def exUserNoTok : UserRec := { id := 2, email := "c@d.com", token := none }

/-- Claim C10 (amended): whenever the stored user value is absent, or
parses to a record whose `token` property is missing or empty, restore
resolves to LoggedOut — never LoggedIn — regardless of how valid the
separately stored access token is; if instead the user value is
unparsable, restore throws out of the effect rather than resolving
(per the counterexample). -/
theorem c10_amended (dec : String → Jwt) (nowMs : Nat) (s : AuthState)
    (h : s.store.user = .absent ∨
      ∃ u, s.store.user = .parsed u ∧ truthyStr u.token = false) :
    restore dec nowMs s = .ok loggedOutState ∧
    loggedOutState.currentUser = none := by
  refine ⟨?_, rfl⟩
  obtain ⟨cu, ⟨su, atk⟩, tm, nv, ld⟩ := s
  dsimp only at h
  rcases h with h | ⟨u, hu, ht⟩
  · subst h; rfl
  · subst hu
    cases atk with
    | none => rfl
    | some t =>
      simp [restore, ht, finishRestore_handleLogout]

/-- Witness for C10 (amended): a token-less stored user record next to
a present, decodable, non-expired access token. -/
theorem c10_amended_witness :
    restore exDecodeValid5 0
      (initialAuthState { user := .parsed exUserNoTok,
                          accessToken := some "tok" }) =
      .ok loggedOutState ∧
    loggedOutState.currentUser = none :=
  c10_amended exDecodeValid5 0
    (initialAuthState { user := .parsed exUserNoTok,
                        accessToken := some "tok" })
    (Or.inr ⟨exUserNoTok, rfl, rfl⟩)
